import Mathlib

/-!
Shallow embedding of the lar-mcp request/response mediation layer
(src/main.ts and src/utils/login.ts).

Modelling conventions:
* Network activity is an oracle: each call site of the JS code receives the
  outcome the environment would have produced there (a thrown error message,
  or a response with status and body).  A handler records the calls it
  actually issued in a trace of `Call` tags, in program order.
* JS exceptions are `Except.error msg`; the per-tool catch block is the
  function `catchWith`, parameterised by the template string of that catch.
* JS values flowing through JSON are the inductive `JVal`; `JVal.jsUndefined`
  models the JS value `undefined` (property access on a missing key).
  Property access on `null`/`undefined` throws, as in JS.
* JSON.parse of the platform is abstracted as a `JsonParse` oracle
  (a parse function plus the message of the SyntaxError it would throw);
  `new Date(...)`/`toISOString` is abstracted as a `DateParse` oracle.
* String operations of JS (split, startsWith, substring, toLowerCase,
  includes) are re-implemented over `List Char` so that every definition
  evaluates inside the kernel.
* URL strings are not rebuilt (the oracle is keyed by call site); request
  bodies that matter to the specification are recorded in the trace.
-/

namespace LarMcp

/-! ## JS string helpers -/

/-- JS `String.prototype.startsWith` over char lists. -/
def lcStartsWith : List Char → List Char → Bool
  | _, [] => true
  | [], _ :: _ => false
  | a :: as, b :: bs => a == b && lcStartsWith as bs

/-- JS `String.prototype.includes` over char lists. -/
def lcContains : List Char → List Char → Bool
  | [], needle => lcStartsWith [] needle
  | c :: rest, needle =>
    if lcStartsWith (c :: rest) needle then true else lcContains rest needle

/-- JS `hay.includes(needle)`. -/
def strContains (hay needle : String) : Bool :=
  lcContains hay.data needle.data

/-- JS `s.startsWith(p)`. -/
def strStartsWith (s p : String) : Bool :=
  lcStartsWith s.data p.data

/-- JS `s.toLowerCase()` (ASCII case folding suffices for the uses here). -/
def strToLower (s : String) : String :=
  String.mk (s.data.map Char.toLower)

/-- JS `s.substring(n)` (the only prefixes dropped here are ASCII, where
UTF-16 units and code points coincide). -/
def strDropN (s : String) (n : Nat) : String :=
  String.mk (s.data.drop n)

/-- `chunk.split("\n\n")`: split on the double-newline delimiter, leftmost
first, non-overlapping, keeping empty pieces (as JS split does).  The
accumulator holds the current piece reversed. -/
def splitNN : List Char → List Char → List String
  | [], cur => [String.mk cur.reverse]
  | '\n' :: '\n' :: rest, cur => String.mk cur.reverse :: splitNN rest []
  | c :: rest, cur => splitNN rest (c :: cur)

/-- `chunk.split("\n\n")` on a string. -/
def strSplitNN (s : String) : List String := splitNN s.data []

/-! ## JS/JSON values -/

/-- JSON values together with the JS value `undefined`, which arises from
property access on a missing key and is dropped by `JSON.stringify`.
Numbers are modelled as integers (all numbers exchanged by this adapter are
integral ids and status values). -/
inductive JVal where
  | jsUndefined
  | null
  | bool (b : Bool)
  | num (n : Int)
  | str (s : String)
  | arr (elems : List JVal)
  | obj (fields : List (String × JVal))

/-- JS truthiness of a value. -/
def JVal.truthy : JVal → Bool
  | .jsUndefined => false
  | .null => false
  | .bool b => b
  | .num n => n != 0
  | .str s => s != ""
  | .arr _ => true
  | .obj _ => true

def JVal.isUndefined : JVal → Bool
  | .jsUndefined => true
  | _ => false

/-- First binding of a key in an object field list. -/
def assocFind : List (String × JVal) → String → Option JVal
  | [], _ => none
  | (k, v) :: rest, key => if k == key then some v else assocFind rest key

/-- JS property access `v.k`: throws a TypeError on `null`/`undefined`,
yields `undefined` on a missing key or a non-object receiver. -/
def JVal.getField : JVal → String → Except String JVal
  | .jsUndefined, k => .error ("Cannot read properties of undefined (reading " ++ k ++ ")")
  | .null, k => .error ("Cannot read properties of null (reading " ++ k ++ ")")
  | .obj fs, k => .ok ((assocFind fs k).getD .jsUndefined)
  | _, _ => .ok .jsUndefined

/-- JS `a || b` on values (short-circuit does not matter for the uses kept
here; see the handlers for the effectful case). -/
def jsOr (a b : JVal) : JVal := if a.truthy then a else b

mutual

/-- JS string conversion of a value, as used by template literals. -/
def JVal.jsToString : JVal → String
  | .jsUndefined => "undefined"
  | .null => "null"
  | .bool b => if b then "true" else "false"
  | .num n => toString n
  | .str s => s
  | .arr xs => jsListToString xs
  | .obj _ => "[object Object]"

/-- JS `Array.prototype.toString` joins elements with commas. -/
def jsListToString : List JVal → String
  | [] => ""
  | [x] => JVal.jsToString x
  | x :: y :: rest => JVal.jsToString x ++ "," ++ jsListToString (y :: rest)

end

/-- One hex digit. -/
def hexDigit (n : Nat) : Char :=
  if n < 10 then Char.ofNat (48 + n) else Char.ofNat (87 + n)

/-- JSON string escaping as performed by `JSON.stringify`. -/
def escapeJsonChar (ch : Char) : String :=
  if ch = '"' then "\\\""
  else if ch = '\\' then "\\\\"
  else if ch = '\n' then "\\n"
  else if ch = '\r' then "\\r"
  else if ch = '\t' then "\\t"
  else if ch = '\x08' then "\\b"
  else if ch = '\x0c' then "\\f"
  else if ch.toNat < 32 then
    "\\u00" ++ String.mk [hexDigit (ch.toNat / 16), hexDigit (ch.toNat % 16)]
  else String.mk [ch]

def escapeJson (s : String) : String :=
  String.join (s.data.map escapeJsonChar)

def quoteJson (s : String) : String := "\"" ++ escapeJson s ++ "\""

def spacesStr (n : Nat) : String := String.mk (List.replicate n ' ')

def joinLines : List String → String
  | [] => ""
  | [x] => x
  | x :: y :: rest => x ++ ",\n" ++ joinLines (y :: rest)

mutual

/-- `JSON.stringify(v, null, 2)` at indentation width `ind`.  Properties
whose value is `undefined` are dropped; an `undefined` array element
renders as `null`. -/
def jstr2 : Nat → JVal → String
  | _, .jsUndefined => "null"
  | _, .null => "null"
  | _, .bool b => if b then "true" else "false"
  | _, .num n => toString n
  | _, .str s => quoteJson s
  | ind, .arr xs =>
    match jarr2 (ind + 2) xs with
    | [] => "[]"
    | items => "[\n" ++ joinLines items ++ "\n" ++ spacesStr ind ++ "]"
  | ind, .obj fs =>
    match jobj2 (ind + 2) fs with
    | [] => "\x7b\x7d"
    | items => "\x7b\n" ++ joinLines items ++ "\n" ++ spacesStr ind ++ "\x7d"

def jarr2 : Nat → List JVal → List String
  | _, [] => []
  | ind, x :: xs => (spacesStr ind ++ jstr2 ind x) :: jarr2 ind xs

def jobj2 : Nat → List (String × JVal) → List String
  | _, [] => []
  | ind, (k, v) :: rest =>
    if v.isUndefined then jobj2 ind rest
    else (spacesStr ind ++ quoteJson k ++ ": " ++ jstr2 ind v) :: jobj2 ind rest

end

/-- `JSON.stringify(v, null, 2)`. -/
def jsonStringify2 (v : JVal) : String := jstr2 0 v

/-! ## Environment, oracles, credential provider -/

/-- The three process configuration values read by `loginAPI`. -/
structure Config where
  apiUrl : Option String
  apiEmail : Option String
  apiPassword : Option String

/-- JS falsiness of `process.env.X` (`undefined` or the empty string). -/
def envFalsy : Option String → Bool
  | none => true
  | some s => s == ""

/-- The guard `!apiUrl || !email || !pass` of `loginAPI`. -/
def configMissing (c : Config) : Bool :=
  envFalsy c.apiUrl || envFalsy c.apiEmail || envFalsy c.apiPassword

/-- Outcome the environment would produce for one axios call: a rejection
(with the message of the thrown error) or a fulfilled value. -/
inductive AxiosResult (α : Type) where
  | throwR (msg : String)
  | okR (value : α)

/-- Network calls a handler can issue, in program order.  Payloads that the
specification talks about are carried on the tag (the JSON body actually
sent is `JSON.stringify` of the payload, which drops `undefined` fields). -/
inductive Call where
  | login
  | userId
  | askPost (payload : JVal)
  | download
  | filesUpload
  | filesDelete
  | filesList
  | clientsList
  | clientCreate (payload : JVal)
  | clientDelete
  | clientGet
  | clientPut (payload : JVal)
  | casesList
  | caseCreate (payload : JVal)
  | caseDelete
  | caseGet
  | casePut (payload : JVal)

/-- Error message thrown by `loginAPI` when configuration is missing. -/
def loginMsg : String :=
  "Faltan las variables de entorno API_URL, API_EMAIL o API_PASSWORD"

/-- `loginAPI` of src/utils/login.ts: check the three environment values,
then POST the login endpoint and return the token. -/
def loginAPI (c : Config) (net : AxiosResult String) :
    Except String String × List Call :=
  if configMissing c then (.error loginMsg, [])
  else
    match net with
    | .throwR m => (.error m, [.login])
    | .okR token => (.ok token, [.login])

/-- `getUserId` of src/utils/login.ts: log in again, then GET the user-id
endpoint with the fresh token. -/
def getUserId (c : Config) (loginNet : AxiosResult String)
    (userIdNet : AxiosResult String) : Except String String × List Call :=
  match loginAPI c loginNet with
  | (.error m, tr) => (.error m, tr)
  | (.ok _token, tr) =>
    match userIdNet with
    | .throwR m => (.error m, tr ++ [.userId])
    | .okR uid => (.ok uid, tr ++ [.userId])

/-! ## Fetch oracle, JSON/date oracles, tool results -/

/-- A fetch response: HTTP status and the body text delivered with it. -/
structure FetchResponse where
  status : Nat
  body : String

/-- Outcome of one `fetch` call site. -/
inductive FetchResult where
  | thrown (msg : String)
  | resp (r : FetchResponse)

/-- `response.ok`: status in the 200..299 range. -/
def respOk (status : Nat) : Bool := 200 ≤ status && status < 300

/-- Platform `JSON.parse`, abstracted: the parse function and the message of
the SyntaxError thrown on failure. -/
structure JsonParse where
  parse : String → Option JVal
  errMsg : String → String

/-- `await response.json()`: parse the body, throwing on malformed JSON. -/
def responseJson (jp : JsonParse) (body : String) : Except String JVal :=
  match jp.parse body with
  | some v => .ok v
  | none => .error (jp.errMsg body)

/-- The tolerant pattern `try { JSON.parse(text) } catch { { raw: text } }`. -/
def parseOrRaw (jp : JsonParse) (text : String) : JVal :=
  match jp.parse text with
  | some v => v
  | none => .obj [("raw", .str text)]

/-- Platform `new Date(s)` / `toISOString`, abstracted: `none` models an
invalid date (`isNaN(date.getTime())`), `some iso` the ISO rendering. -/
structure DateParse where
  toIso : String → Option String

/-- One content item of a ToolResult. -/
structure ContentItem where
  type : String
  text : String

/-- The uniform result envelope returned to the MCP layer: the content list
plus the extra structured fields spread into the result object. -/
structure ToolResult where
  content : List ContentItem
  fields : List (String × JVal)

/-- A result with a single text item and no structured fields. -/
def mkText (s : String) : ToolResult := ⟨[⟨"text", s⟩], []⟩

/-- A result with a single text item and structured fields. -/
def mkTextF (s : String) (fs : List (String × JVal)) : ToolResult :=
  ⟨[⟨"text", s⟩], fs⟩

/-- `content[0]` exists and is a text item. -/
def wellFormed (r : ToolResult) : Bool :=
  match r.content with
  | item :: _ => item.type == "text"
  | [] => false

/-- The per-tool catch block: a thrown failure becomes a text result built
from the template of that tool. -/
def catchWith (template : String)
    (r : Except String ToolResult × List Call) : ToolResult × List Call :=
  match r with
  | (.ok res, tr) => (res, tr)
  | (.error m, tr) => (mkText (template ++ m), tr)

/-- Template of the generic catch used by nine of the twelve tools. -/
def procMsg : String := "Error en el proceso: "

/-- JS `a || b` for the pattern `fullText || defaultMessage`. -/
def strOrElse (s d : String) : String := if s == "" then d else s

/-! ## Stream decoder (lar-ask) -/

/-- One pass of the lar-ask read loop body on one decoded chunk: split on
the double-newline delimiter, drop empty frames, and append the remainder
after the literal `data: ` of each frame that begins with it. -/
def processChunk (acc : String) (chunk : String) : String :=
  ((strSplitNN chunk).filter (fun e => e != "")).foldl
    (fun a e => if strStartsWith e "data: " then a ++ strDropN e 6 else a) acc

/-- The whole read loop: chunks arrive in order until `done`. -/
def decodeStream (chunks : List String) : String :=
  chunks.foldl processChunk ""

/-- Response of the ask endpoint: status, error body text, whether
`response.body.getReader()` is available, and the decoded text chunks the
reader yields. -/
structure AskResponse where
  status : Nat
  body : String
  hasReader : Bool
  chunks : List String

/-- Outcome of the ask fetch call site. -/
inductive AskNet where
  | thrown (msg : String)
  | resp (r : AskResponse)

/-! ## Tool handlers -/

/-- Body of the lar-ask tool (inside its try block). -/
def larAskBody (c : Config) (loginNet : AxiosResult String) (askNet : AskNet)
    (message : String) (fileId : Int) : Except String ToolResult × List Call :=
  match loginAPI c loginNet with
  | (.error m, tr) => (.error m, tr)
  | (.ok _tokenJWT, tr) =>
    match askNet with
    | .thrown m =>
      (.error m,
        tr ++ [.askPost (.obj [("message", .str message), ("fileId", .num fileId)])])
    | .resp r =>
      if !respOk r.status then
        (.ok (mkText ("Error al realizar la consulta: " ++ toString r.status ++ " - " ++ r.body)),
          tr ++ [.askPost (.obj [("message", .str message), ("fileId", .num fileId)])])
      else if !r.hasReader then
        (.ok (mkText "No se pudo iniciar la lectura de la respuesta en streaming."),
          tr ++ [.askPost (.obj [("message", .str message), ("fileId", .num fileId)])])
      else
        (.ok (mkTextF (strOrElse (decodeStream r.chunks) "No se recibió respuesta del servidor.")
          [("question", .str message), ("fileId", .num fileId)]),
          tr ++ [.askPost (.obj [("message", .str message), ("fileId", .num fileId)])])

/-- The lar-ask tool handler. -/
def larAsk (c : Config) (loginNet : AxiosResult String) (askNet : AskNet)
    (message : String) (fileId : Int) : ToolResult × List Call :=
  catchWith procMsg (larAskBody c loginNet askNet message fileId)

/-- Body of the lar-delete-document tool. -/
def larDeleteDocumentBody (c : Config) (loginNet : AxiosResult String)
    (delNet : FetchResult) (name : String) : Except String ToolResult × List Call :=
  match loginAPI c loginNet with
  | (.error m, tr) => (.error m, tr)
  | (.ok _tokenJWT, tr) =>
    match delNet with
    | .thrown m => (.error m, tr ++ [.filesDelete])
    | .resp r =>
      if !respOk r.status then
        if r.status == 404 then
          (.ok (mkText ("No se encontró ningún documento con el nombre \"" ++ name ++ "\".")),
            tr ++ [.filesDelete])
        else
          (.ok (mkText ("Error al eliminar el documento: " ++ toString r.status ++ " - " ++ r.body)),
            tr ++ [.filesDelete])
      else
        (.ok (mkText ("Documento \"" ++ name ++ "\" eliminado correctamente.")),
          tr ++ [.filesDelete])

/-- The lar-delete-document tool handler. -/
def larDeleteDocument (c : Config) (loginNet : AxiosResult String)
    (delNet : FetchResult) (name : String) : ToolResult × List Call :=
  catchWith procMsg (larDeleteDocumentBody c loginNet delNet name)

/-- Body of the lar-list-documents tool.  Note the body is read with
`response.json()`, which throws on malformed JSON. -/
def larListDocumentsBody (c : Config) (loginNet : AxiosResult String)
    (listNet : FetchResult) (jp : JsonParse) : Except String ToolResult × List Call :=
  match loginAPI c loginNet with
  | (.error m, tr) => (.error m, tr)
  | (.ok _tokenJWT, tr) =>
    match listNet with
    | .thrown m => (.error m, tr ++ [.filesList])
    | .resp r =>
      if !respOk r.status then
        (.ok (mkText ("Error al obtener los documentos: " ++ toString r.status ++ " - " ++ r.body)),
          tr ++ [.filesList])
      else
        match responseJson jp r.body with
        | .error m => (.error m, tr ++ [.filesList])
        | .ok documents =>
          (.ok (mkTextF (jsonStringify2 documents) [("documents", documents)]),
            tr ++ [.filesList])

/-- The lar-list-documents tool handler; its catch uses the tool-specific
template, not the generic one. -/
def larListDocuments (c : Config) (loginNet : AxiosResult String)
    (listNet : FetchResult) (jp : JsonParse) : ToolResult × List Call :=
  catchWith "Error al obtener los documentos: " (larListDocumentsBody c loginNet listNet jp)

/-- Body of the lar-list-clients tool. -/
def larListClientsBody (c : Config) (loginNet : AxiosResult String)
    (listNet : FetchResult) (jp : JsonParse) : Except String ToolResult × List Call :=
  match loginAPI c loginNet with
  | (.error m, tr) => (.error m, tr)
  | (.ok _tokenJWT, tr) =>
    match listNet with
    | .thrown m => (.error m, tr ++ [.clientsList])
    | .resp r =>
      if !respOk r.status then
        (.ok (mkText ("Error al obtener los clientes: " ++ toString r.status ++ " - " ++ r.body)),
          tr ++ [.clientsList])
      else
        match responseJson jp r.body with
        | .error m => (.error m, tr ++ [.clientsList])
        | .ok clients =>
          (.ok (mkTextF (jsonStringify2 clients) [("clients", clients)]),
            tr ++ [.clientsList])

/-- The lar-list-clients tool handler. -/
def larListClients (c : Config) (loginNet : AxiosResult String)
    (listNet : FetchResult) (jp : JsonParse) : ToolResult × List Call :=
  catchWith "Error al obtener los clientes: " (larListClientsBody c loginNet listNet jp)

/-- Body of the lar-delete-client tool. -/
def larDeleteClientBody (c : Config) (loginNet : AxiosResult String)
    (delNet : FetchResult) (clientId : Int) : Except String ToolResult × List Call :=
  match loginAPI c loginNet with
  | (.error m, tr) => (.error m, tr)
  | (.ok _tokenJWT, tr) =>
    match delNet with
    | .thrown m => (.error m, tr ++ [.clientDelete])
    | .resp r =>
      if !respOk r.status then
        if r.status == 400 && strContains r.body "associated cases" then
          (.ok (mkText ("No se puede eliminar el cliente porque tiene casos asociados. " ++
            "Por favor, elimine primero los casos o reasígnelos a otro cliente.")),
            tr ++ [.clientDelete])
        else
          (.ok (mkText ("Error al eliminar el cliente: " ++ toString r.status ++ " - " ++ r.body)),
            tr ++ [.clientDelete])
      else
        (.ok (mkText ("Cliente con ID " ++ toString clientId ++ " eliminado correctamente.")),
          tr ++ [.clientDelete])

/-- The lar-delete-client tool handler. -/
def larDeleteClient (c : Config) (loginNet : AxiosResult String)
    (delNet : FetchResult) (clientId : Int) : ToolResult × List Call :=
  catchWith procMsg (larDeleteClientBody c loginNet delNet clientId)

/-- Body of the lar-delete-case tool.  There is no 404 special case here:
every non-2xx status takes the single generic branch. -/
def larDeleteCaseBody (c : Config) (loginNet : AxiosResult String)
    (delNet : FetchResult) (caseId : Int) : Except String ToolResult × List Call :=
  match loginAPI c loginNet with
  | (.error m, tr) => (.error m, tr)
  | (.ok _tokenJWT, tr) =>
    match delNet with
    | .thrown m => (.error m, tr ++ [.caseDelete])
    | .resp r =>
      if !respOk r.status then
        (.ok (mkText ("Error al eliminar el caso: " ++ toString r.status ++ " - " ++ r.body)),
          tr ++ [.caseDelete])
      else
        (.ok (mkText ("Caso con ID " ++ toString caseId ++ " eliminado correctamente.")),
          tr ++ [.caseDelete])

/-- The lar-delete-case tool handler. -/
def larDeleteCase (c : Config) (loginNet : AxiosResult String)
    (delNet : FetchResult) (caseId : Int) : ToolResult × List Call :=
  catchWith procMsg (larDeleteCaseBody c loginNet delNet caseId)

/-- Body of the lar-list-cases tool: after `response.json()`, a non-array
value or an empty array yields the no-cases message with no structured
field; a non-empty array yields the serialized listing plus the `cases`
field. -/
def larListCasesBody (c : Config) (loginNet : AxiosResult String)
    (listNet : FetchResult) (jp : JsonParse) : Except String ToolResult × List Call :=
  match loginAPI c loginNet with
  | (.error m, tr) => (.error m, tr)
  | (.ok _tokenJWT, tr) =>
    match listNet with
    | .thrown m => (.error m, tr ++ [.casesList])
    | .resp r =>
      if !respOk r.status then
        (.ok (mkText ("Error al obtener los casos: " ++ toString r.status ++ " - " ++ r.body)),
          tr ++ [.casesList])
      else
        match responseJson jp r.body with
        | .error m => (.error m, tr ++ [.casesList])
        | .ok casesVal =>
          match casesVal with
          | .arr (x :: xs) =>
            (.ok (mkTextF (jsonStringify2 (.arr (x :: xs))) [("cases", .arr (x :: xs))]),
              tr ++ [.casesList])
          | _ =>
            (.ok (mkText "No hay casos disponibles en el sistema."), tr ++ [.casesList])

/-- The lar-list-cases tool handler. -/
def larListCases (c : Config) (loginNet : AxiosResult String)
    (listNet : FetchResult) (jp : JsonParse) : ToolResult × List Call :=
  catchWith "Error al obtener los casos: " (larListCasesBody c loginNet listNet jp)

/-! ## lar-upload-document -/

/-- Outcome of the document download fetch: the content-type header and the
raw body bytes.  The download happens before any configuration check. -/
inductive DownloadResult where
  | thrown (msg : String)
  | resp (contentType : Option String) (bytes : List Nat)

/-- The PDF signature bytes `%PDF-`. -/
def pdfMagic : List Nat := [37, 80, 68, 70, 45]

/-- `Buffer.from(arrayBuffer).subarray(0, 5).toString() === "%PDF-"`: the
decoded prefix equals the signature string exactly when the first five body
bytes are the signature bytes (UTF-8 decoding is injective, and the
signature is plain ASCII). -/
def hasPdfMagic (bytes : List Nat) : Bool := bytes.take 5 == pdfMagic

/-- The guard `!contentType || !contentType.toLowerCase().includes("pdf")`
(negated). -/
def contentTypeIsPdf : Option String → Bool
  | none => false
  | some ct => strContains (strToLower ct) "pdf"

/-- The expression `result.Id || result.id || "desconocido"`; property
access throws if the parsed body is `null`. -/
def uploadIdVal (result : JVal) : Except String JVal := do
  let idUpper ← result.getField "Id"
  if idUpper.truthy then pure idUpper
  else do
    let idLower ← result.getField "id"
    if idLower.truthy then pure idLower else pure (.str "desconocido")

/-- Body of the lar-upload-document tool.  The candidate document is
downloaded and validated first; `loginAPI` (and with it the configuration
check) runs only after both validations pass.  The `name`/`url` inputs feed
the form data and the download request, which the oracle stands for. -/
def larUploadDocumentBody (c : Config) (downloadNet : DownloadResult)
    (loginNet : AxiosResult String) (uploadNet : FetchResult) (jp : JsonParse)
    (_name _url : String) : Except String ToolResult × List Call :=
  match downloadNet with
  | .thrown m => (.error m, [.download])
  | .resp contentType bytes =>
    if !contentTypeIsPdf contentType then
      (.ok (mkText "Solo se permiten archivos PDF. El archivo descargado no tiene tipo PDF."),
        [.download])
    else if !hasPdfMagic bytes then
      (.ok (mkText "Solo se permiten archivos PDF. El archivo descargado no es un PDF válido."),
        [.download])
    else
      match loginAPI c loginNet with
      | (.error m, tr) => (.error m, .download :: tr)
      | (.ok _tokenJWT, tr) =>
        match uploadNet with
        | .thrown m => (.error m, .download :: tr ++ [.filesUpload])
        | .resp r =>
          if !respOk r.status then
            (.ok (mkText ("Error al subir el documento: " ++ toString r.status ++ " - " ++ r.body)),
              .download :: tr ++ [.filesUpload])
          else
            match uploadIdVal (parseOrRaw jp r.body) with
            | .error m => (.error m, .download :: tr ++ [.filesUpload])
            | .ok idV =>
              (.ok (mkTextF ("Documento subido correctamente. ID: " ++ idV.jsToString)
                [("apiResponse", parseOrRaw jp r.body)]),
                .download :: tr ++ [.filesUpload])

/-- The lar-upload-document tool handler. -/
def larUploadDocument (c : Config) (downloadNet : DownloadResult)
    (loginNet : AxiosResult String) (uploadNet : FetchResult) (jp : JsonParse)
    (name url : String) : ToolResult × List Call :=
  catchWith procMsg (larUploadDocumentBody c downloadNet loginNet uploadNet jp name url)

/-! ## lar-create-client -/

/-- The `clientData` object of lar-create-client: `address` and `notes` are
added only when truthy. -/
def clientData (idUser name contactInformation : String)
    (address notes : Option String) : JVal :=
  .obj ([("idUser", .str idUser), ("name", .str name),
         ("contactInformation", .str contactInformation)]
    ++ (match address with
        | some a => if a != "" then [("address", JVal.str a)] else []
        | none => [])
    ++ (match notes with
        | some n => if n != "" then [("notes", JVal.str n)] else []
        | none => []))

/-- Body of the lar-create-client tool. -/
def larCreateClientBody (c : Config) (loginNet loginNet2 userIdNet : AxiosResult String)
    (postNet : FetchResult) (jp : JsonParse)
    (name contactInformation : String) (address notes : Option String) :
    Except String ToolResult × List Call :=
  match loginAPI c loginNet with
  | (.error m, tr) => (.error m, tr)
  | (.ok _tokenJWT, tr) =>
    match getUserId c loginNet2 userIdNet with
    | (.error m, trU) => (.error m, tr ++ trU)
    | (.ok idUser, trU) =>
      match postNet with
      | .thrown m =>
        (.error m, tr ++ trU ++ [.clientCreate (clientData idUser name contactInformation address notes)])
      | .resp r =>
        if !respOk r.status then
          (.ok (mkText ("Error al crear el cliente: " ++ toString r.status ++ " - " ++ r.body)),
            tr ++ trU ++ [.clientCreate (clientData idUser name contactInformation address notes)])
        else
          (.ok (mkTextF "Cliente creado correctamente.\x7d" [("client", parseOrRaw jp r.body)]),
            tr ++ trU ++ [.clientCreate (clientData idUser name contactInformation address notes)])

/-- The lar-create-client tool handler. -/
def larCreateClient (c : Config) (loginNet loginNet2 userIdNet : AxiosResult String)
    (postNet : FetchResult) (jp : JsonParse)
    (name contactInformation : String) (address notes : Option String) :
    ToolResult × List Call :=
  catchWith procMsg
    (larCreateClientBody c loginNet loginNet2 userIdNet postNet jp name contactInformation address notes)

/-! ## lar-create-case -/

/-- Invalid-date message shared by lar-create-case and lar-edit-case. -/
def invalidDateMsg : String :=
  "Formato de fecha inválido. Por favor, usa el formato YYYY-MM-DD o YYYY-MM-DDTHH:MM:SS±HH:MM."

/-- The `caseData` object of lar-create-case before the courtDate step:
`description` is added only when truthy. -/
def caseDataCreate (title assignedUserId : String) (clientId : Int)
    (status : String) (description : Option String) : List (String × JVal) :=
  [("title", .str title), ("assignedUserId", .str assignedUserId),
   ("clientId", .num clientId), ("status", .str status)]
  ++ (match description with
      | some d => if d != "" then [("description", JVal.str d)] else []
      | none => [])

/-- The POST step of lar-create-case. -/
def createCasePost (postNet : FetchResult) (jp : JsonParse)
    (payload : List (String × JVal)) (tr : List Call) :
    Except String ToolResult × List Call :=
  match postNet with
  | .thrown m => (.error m, tr ++ [.caseCreate (.obj payload)])
  | .resp r =>
    if !respOk r.status then
      (.ok (mkText ("Error al crear el caso: " ++ toString r.status ++ " - " ++ r.body)),
        tr ++ [.caseCreate (.obj payload)])
    else
      (.ok (mkTextF "Caso creado correctamente." [("case", parseOrRaw jp r.body)]),
        tr ++ [.caseCreate (.obj payload)])

/-- Body of the lar-create-case tool.  `status` arrives with the schema
default `Open` already applied (schema validation is the external
collaborator). -/
def larCreateCaseBody (c : Config) (loginNet loginNet2 userIdNet : AxiosResult String)
    (postNet : FetchResult) (jp : JsonParse) (dp : DateParse)
    (title : String) (description : Option String) (status : String)
    (courtDate : Option String) (clientId : Int) : Except String ToolResult × List Call :=
  match loginAPI c loginNet with
  | (.error m, tr) => (.error m, tr)
  | (.ok _tokenJWT, tr) =>
    match getUserId c loginNet2 userIdNet with
    | (.error m, trU) => (.error m, tr ++ trU)
    | (.ok assignedUserId, trU) =>
      match courtDate with
      | some cd =>
        if cd != "" then
          match dp.toIso cd with
          | none => (.ok (mkText invalidDateMsg), tr ++ trU)
          | some iso =>
            createCasePost postNet jp
              (caseDataCreate title assignedUserId clientId status description
                ++ [("courtDate", .str iso)]) (tr ++ trU)
        else
          createCasePost postNet jp
            (caseDataCreate title assignedUserId clientId status description) (tr ++ trU)
      | none =>
        createCasePost postNet jp
          (caseDataCreate title assignedUserId clientId status description) (tr ++ trU)

/-- The lar-create-case tool handler. -/
def larCreateCase (c : Config) (loginNet loginNet2 userIdNet : AxiosResult String)
    (postNet : FetchResult) (jp : JsonParse) (dp : DateParse)
    (title : String) (description : Option String) (status : String)
    (courtDate : Option String) (clientId : Int) : ToolResult × List Call :=
  catchWith procMsg
    (larCreateCaseBody c loginNet loginNet2 userIdNet postNet jp dp
      title description status courtDate clientId)

/-! ## lar-edit-client -/

/-- The `updatedClientData` merge of lar-edit-client: `name` and
`contactInformation` use the undefined-check (a supplied empty string is
kept); `address` and `notes` use the undefined-check for the caller value
but carry the fetched value over only when it is truthy.  Field access on
the fetched entity can throw (when the entity is `null`), in source order. -/
def updatedClientData (idUser : String) (currentClient : JVal)
    (name contactInformation address notes : Option String) :
    Except String (List (String × JVal)) :=
  match (match name with
         | some n => Except.ok (JVal.str n)
         | none => currentClient.getField "name") with
  | .error e => .error e
  | .ok nameVal =>
    match (match contactInformation with
           | some ci => Except.ok (JVal.str ci)
           | none => currentClient.getField "contactInformation") with
    | .error e => .error e
    | .ok contactVal =>
      match (match address with
             | some a => Except.ok [("address", JVal.str a)]
             | none =>
               match currentClient.getField "address" with
               | .error e => .error e
               | .ok cur => .ok (if cur.truthy then [("address", cur)] else [])) with
      | .error e => .error e
      | .ok addressFields =>
        match (match notes with
               | some n => Except.ok [("notes", JVal.str n)]
               | none =>
                 match currentClient.getField "notes" with
                 | .error e => .error e
                 | .ok cur => .ok (if cur.truthy then [("notes", cur)] else [])) with
        | .error e => .error e
        | .ok notesFields =>
          .ok ([("idUser", JVal.str idUser), ("name", nameVal),
            ("contactInformation", contactVal)] ++ addressFields ++ notesFields)

/-- The PUT step of lar-edit-client. -/
def editClientPut (putNet : FetchResult) (jp : JsonParse) (clientId : Int)
    (payload : List (String × JVal)) (tr : List Call) :
    Except String ToolResult × List Call :=
  match putNet with
  | .thrown m => (.error m, tr ++ [.clientPut (.obj payload)])
  | .resp r =>
    if !respOk r.status then
      (.ok (mkText ("Error al actualizar el cliente: " ++ toString r.status ++ " - " ++ r.body)),
        tr ++ [.clientPut (.obj payload)])
    else
      (.ok (mkTextF ("Cliente con ID " ++ toString clientId ++ " actualizado correctamente.")
        [("client", parseOrRaw jp r.body)]),
        tr ++ [.clientPut (.obj payload)])

/-- Body of the lar-edit-client tool: GET, merge, PUT. -/
def larEditClientBody (c : Config) (loginNet : AxiosResult String) (getNet : FetchResult)
    (loginNet2 userIdNet : AxiosResult String) (putNet : FetchResult) (jp : JsonParse)
    (clientId : Int) (name contactInformation address notes : Option String) :
    Except String ToolResult × List Call :=
  match loginAPI c loginNet with
  | (.error m, tr) => (.error m, tr)
  | (.ok _tokenJWT, tr) =>
    match getNet with
    | .thrown m => (.error m, tr ++ [.clientGet])
    | .resp gr =>
      if !respOk gr.status then
        (.ok (mkText ("Error al obtener el cliente para editar: " ++ toString gr.status ++ " - " ++ gr.body)),
          tr ++ [.clientGet])
      else
        match responseJson jp gr.body with
        | .error m => (.error m, tr ++ [.clientGet])
        | .ok currentClient =>
          match getUserId c loginNet2 userIdNet with
          | (.error m, trU) => (.error m, tr ++ [.clientGet] ++ trU)
          | (.ok idUser, trU) =>
            match updatedClientData idUser currentClient name contactInformation address notes with
            | .error m => (.error m, tr ++ [.clientGet] ++ trU)
            | .ok payload =>
              editClientPut putNet jp clientId payload (tr ++ [.clientGet] ++ trU)

/-- The lar-edit-client tool handler. -/
def larEditClient (c : Config) (loginNet : AxiosResult String) (getNet : FetchResult)
    (loginNet2 userIdNet : AxiosResult String) (putNet : FetchResult) (jp : JsonParse)
    (clientId : Int) (name contactInformation address notes : Option String) :
    ToolResult × List Call :=
  catchWith procMsg
    (larEditClientBody c loginNet getNet loginNet2 userIdNet putNet jp
      clientId name contactInformation address notes)

/-! ## lar-edit-case -/

/-- The first four fields of the `updatedCaseData` merge of lar-edit-case:
`title`, `status` and `clientId` use JS truthiness (`x || fallback`), so a
supplied empty string or zero falls back to the fetched value, while
`description` uses the undefined-check.  Field accesses happen in source
order and can throw when the fetched entity is `null`. -/
def updatedCaseDataBase (currentCase : JVal)
    (title description status : Option String) (clientId : Option Int) :
    Except String (List (String × JVal)) :=
  match (match title with
         | some t => if t != "" then Except.ok (JVal.str t) else currentCase.getField "title"
         | none => currentCase.getField "title") with
  | .error e => .error e
  | .ok titleVal =>
    match (match description with
           | some d => Except.ok (JVal.str d)
           | none => currentCase.getField "description") with
    | .error e => .error e
    | .ok descriptionVal =>
      match (match status with
             | some s => if s != "" then Except.ok (JVal.str s) else currentCase.getField "status"
             | none => currentCase.getField "status") with
      | .error e => .error e
      | .ok statusVal =>
        match (match clientId with
               | some n => if n != 0 then Except.ok (JVal.num n) else currentCase.getField "clientId"
               | none => currentCase.getField "clientId") with
        | .error e => .error e
        | .ok clientIdVal =>
          .ok [("title", titleVal), ("description", descriptionVal), ("status", statusVal),
            ("clientId", clientIdVal)]

/-- `assignedUserId || (await getUserId())`: a truthy caller value is used
without any network call; otherwise the current user is resolved (which
logs in again). -/
def assignedUserIdVal (c : Config) (loginNet2 userIdNet : AxiosResult String)
    (assignedUserId : Option Int) : Except String JVal × List Call :=
  match assignedUserId with
  | some n =>
    if n != 0 then (.ok (JVal.num n), [])
    else
      match getUserId c loginNet2 userIdNet with
      | (.error m, tr) => (.error m, tr)
      | (.ok uid, tr) => (.ok (JVal.str uid), tr)
  | none =>
    match getUserId c loginNet2 userIdNet with
    | (.error m, tr) => (.error m, tr)
    | (.ok uid, tr) => (.ok (JVal.str uid), tr)

/-- The PUT step of lar-edit-case. -/
def editCasePut (putNet : FetchResult) (jp : JsonParse) (caseId : Int)
    (payload : List (String × JVal)) (tr : List Call) :
    Except String ToolResult × List Call :=
  match putNet with
  | .thrown m => (.error m, tr ++ [.casePut (.obj payload)])
  | .resp r =>
    if !respOk r.status then
      (.ok (mkText ("Error al actualizar el caso: " ++ toString r.status ++ " - " ++ r.body)),
        tr ++ [.casePut (.obj payload)])
    else
      (.ok (mkTextF ("Caso con ID " ++ toString caseId ++ " actualizado correctamente.")
        [("case", parseOrRaw jp r.body)]),
        tr ++ [.casePut (.obj payload)])

/-- Body of the lar-edit-case tool: GET, merge (with the truthiness rules of
`updatedCaseDataBase` and `assignedUserIdVal`), courtDate handling (a truthy
input is parsed, an invalid date aborts before the PUT, a falsy input falls
back to a truthy fetched value), then PUT. -/
def larEditCaseBody (c : Config) (loginNet : AxiosResult String) (getNet : FetchResult)
    (loginNet2 userIdNet : AxiosResult String) (putNet : FetchResult)
    (jp : JsonParse) (dp : DateParse) (caseId : Int)
    (title description status courtDate : Option String)
    (clientId assignedUserId : Option Int) : Except String ToolResult × List Call :=
  match loginAPI c loginNet with
  | (.error m, tr) => (.error m, tr)
  | (.ok _tokenJWT, tr) =>
    match getNet with
    | .thrown m => (.error m, tr ++ [.caseGet])
    | .resp gr =>
      if !respOk gr.status then
        (.ok (mkText ("Error al obtener el caso para editar: " ++ toString gr.status ++ " - " ++ gr.body)),
          tr ++ [.caseGet])
      else
        match responseJson jp gr.body with
        | .error m => (.error m, tr ++ [.caseGet])
        | .ok currentCase =>
          match updatedCaseDataBase currentCase title description status clientId with
          | .error m => (.error m, tr ++ [.caseGet])
          | .ok baseFields =>
            match assignedUserIdVal c loginNet2 userIdNet assignedUserId with
            | (.error m, trU) => (.error m, tr ++ [.caseGet] ++ trU)
            | (.ok assignedVal, trU) =>
              match courtDate with
              | some cd =>
                if cd != "" then
                  match dp.toIso cd with
                  | none => (.ok (mkText invalidDateMsg), tr ++ [.caseGet] ++ trU)
                  | some iso =>
                    editCasePut putNet jp caseId
                      (baseFields ++ [("assignedUserId", assignedVal)] ++ [("courtDate", .str iso)])
                      (tr ++ [.caseGet] ++ trU)
                else
                  match currentCase.getField "courtDate" with
                  | .error m => (.error m, tr ++ [.caseGet] ++ trU)
                  | .ok cur =>
                    editCasePut putNet jp caseId
                      (baseFields ++ [("assignedUserId", assignedVal)]
                        ++ (if cur.truthy then [("courtDate", cur)] else []))
                      (tr ++ [.caseGet] ++ trU)
              | none =>
                match currentCase.getField "courtDate" with
                | .error m => (.error m, tr ++ [.caseGet] ++ trU)
                | .ok cur =>
                  editCasePut putNet jp caseId
                    (baseFields ++ [("assignedUserId", assignedVal)]
                      ++ (if cur.truthy then [("courtDate", cur)] else []))
                    (tr ++ [.caseGet] ++ trU)

/-- The lar-edit-case tool handler. -/
def larEditCase (c : Config) (loginNet : AxiosResult String) (getNet : FetchResult)
    (loginNet2 userIdNet : AxiosResult String) (putNet : FetchResult)
    (jp : JsonParse) (dp : DateParse) (caseId : Int)
    (title description status courtDate : Option String)
    (clientId assignedUserId : Option Int) : ToolResult × List Call :=
  catchWith procMsg
    (larEditCaseBody c loginNet getNet loginNet2 userIdNet putNet jp dp caseId
      title description status courtDate clientId assignedUserId)

/-! ## Concrete fixtures for witnesses and counterexamples -/

/-- A configuration with all three values set. -/
def cfgFull : Config := ⟨some "http://localhost:3000", some "user@host.com", some "pw"⟩

/-- A configuration with the password unset. -/
def cfgNoPass : Config := ⟨some "http://localhost:3000", some "user@host.com", none⟩

/-- A JSON.parse oracle that fails on every input. -/
def jpFail : JsonParse :=
  ⟨fun _ => none, fun _ => "Unexpected token o in JSON at position 0"⟩

/-- A JSON.parse oracle that yields a fixed value on every input. -/
def jpConst (v : JVal) : JsonParse :=
  ⟨fun _ => some v, fun _ => "Unexpected token"⟩

/-- A JSON.parse oracle that parses exactly one designated input to a fixed
value and fails on every other input. -/
def jpOnly (goodInput : String) (v : JVal) : JsonParse :=
  ⟨fun s => if s == goodInput then some v else none,
   fun _ => "Unexpected token o in JSON at position 0"⟩

/-- A date oracle that accepts no input. -/
def dpNone : DateParse := ⟨fun _ => none⟩

/-- Concatenation of a list of strings. -/
def strJoin : List String → String
  | [] => ""
  | x :: xs => x ++ strJoin xs

/-! ## Well-formedness helper lemmas -/

theorem wellFormed_larAsk (c : Config) (loginNet : AxiosResult String)
    (askNet : AskNet) (message : String) (fileId : Int) :
    wellFormed (larAsk c loginNet askNet message fileId).1 = true := by
  unfold larAsk larAskBody loginAPI
  repeat' split
  all_goals rfl

theorem wellFormed_larDeleteDocument (c : Config) (loginNet : AxiosResult String)
    (delNet : FetchResult) (name : String) :
    wellFormed (larDeleteDocument c loginNet delNet name).1 = true := by
  unfold larDeleteDocument larDeleteDocumentBody loginAPI
  repeat' split
  all_goals rfl

theorem wellFormed_larListDocuments (c : Config) (loginNet : AxiosResult String)
    (listNet : FetchResult) (jp : JsonParse) :
    wellFormed (larListDocuments c loginNet listNet jp).1 = true := by
  unfold larListDocuments larListDocumentsBody loginAPI responseJson
  repeat' split
  all_goals rfl

theorem wellFormed_larListClients (c : Config) (loginNet : AxiosResult String)
    (listNet : FetchResult) (jp : JsonParse) :
    wellFormed (larListClients c loginNet listNet jp).1 = true := by
  unfold larListClients larListClientsBody loginAPI responseJson
  repeat' split
  all_goals rfl

theorem wellFormed_larDeleteClient (c : Config) (loginNet : AxiosResult String)
    (delNet : FetchResult) (clientId : Int) :
    wellFormed (larDeleteClient c loginNet delNet clientId).1 = true := by
  unfold larDeleteClient larDeleteClientBody loginAPI
  repeat' split
  all_goals rfl

theorem wellFormed_larDeleteCase (c : Config) (loginNet : AxiosResult String)
    (delNet : FetchResult) (caseId : Int) :
    wellFormed (larDeleteCase c loginNet delNet caseId).1 = true := by
  unfold larDeleteCase larDeleteCaseBody loginAPI
  repeat' split
  all_goals rfl

theorem wellFormed_larListCases (c : Config) (loginNet : AxiosResult String)
    (listNet : FetchResult) (jp : JsonParse) :
    wellFormed (larListCases c loginNet listNet jp).1 = true := by
  unfold larListCases larListCasesBody loginAPI responseJson
  repeat' split
  all_goals rfl

theorem wellFormed_larUploadDocument (c : Config) (downloadNet : DownloadResult)
    (loginNet : AxiosResult String) (uploadNet : FetchResult) (jp : JsonParse)
    (name url : String) :
    wellFormed (larUploadDocument c downloadNet loginNet uploadNet jp name url).1 = true := by
  unfold larUploadDocument larUploadDocumentBody loginAPI
  repeat' split
  all_goals rfl

theorem wellFormed_larCreateClient (c : Config)
    (loginNet loginNet2 userIdNet : AxiosResult String) (postNet : FetchResult)
    (jp : JsonParse) (name contactInformation : String) (address notes : Option String) :
    wellFormed (larCreateClient c loginNet loginNet2 userIdNet postNet jp
      name contactInformation address notes).1 = true := by
  unfold larCreateClient larCreateClientBody loginAPI getUserId
  repeat' split
  all_goals rfl

theorem wellFormed_larCreateCase (c : Config)
    (loginNet loginNet2 userIdNet : AxiosResult String) (postNet : FetchResult)
    (jp : JsonParse) (dp : DateParse) (title : String) (description : Option String)
    (status : String) (courtDate : Option String) (clientId : Int) :
    wellFormed (larCreateCase c loginNet loginNet2 userIdNet postNet jp dp
      title description status courtDate clientId).1 = true := by
  unfold larCreateCase larCreateCaseBody createCasePost loginAPI getUserId
  repeat' split
  all_goals rfl

theorem wellFormed_larEditClient (c : Config) (loginNet : AxiosResult String)
    (getNet : FetchResult) (loginNet2 userIdNet : AxiosResult String)
    (putNet : FetchResult) (jp : JsonParse) (clientId : Int)
    (name contactInformation address notes : Option String) :
    wellFormed (larEditClient c loginNet getNet loginNet2 userIdNet putNet jp
      clientId name contactInformation address notes).1 = true := by
  unfold larEditClient larEditClientBody editClientPut loginAPI getUserId responseJson
  repeat' split
  all_goals rfl

theorem wellFormed_larEditCase (c : Config) (loginNet : AxiosResult String)
    (getNet : FetchResult) (loginNet2 userIdNet : AxiosResult String)
    (putNet : FetchResult) (jp : JsonParse) (dp : DateParse) (caseId : Int)
    (title description status courtDate : Option String)
    (clientId assignedUserId : Option Int) :
    wellFormed (larEditCase c loginNet getNet loginNet2 userIdNet putNet jp dp
      caseId title description status courtDate clientId assignedUserId).1 = true := by
  unfold larEditCase larEditCaseBody editCasePut loginAPI responseJson
  repeat' split
  all_goals rfl

/-! ## Shared helper lemmas -/

/-- With a missing configuration value, `loginAPI` throws the configuration
message without touching the network. -/
theorem loginAPI_configMissing (c : Config) (net : AxiosResult String)
    (h : configMissing c = true) : loginAPI c net = (.error loginMsg, []) := by
  simp [loginAPI, h]

/-- A body that threw is converted by the catch block into the templated
text result. -/
theorem catchWith_error (t m : String) (r : Except String ToolResult × List Call)
    (h : r.1 = .error m) : (catchWith t r).1 = mkText (t ++ m) := by
  rcases r with ⟨e, tr⟩
  cases e with
  | error x =>
    injection h with hx
    subst hx
    rfl
  | ok x => exact absurd h (by simp)

theorem strAppend_assoc (a b c : String) : (a ++ b) ++ c = a ++ (b ++ c) := by
  rcases a with ⟨la⟩; rcases b with ⟨lb⟩; rcases c with ⟨lc⟩
  show String.mk ((la ++ lb) ++ lc) = String.mk (la ++ (lb ++ lc))
  rw [List.append_assoc]

/-! ## C1 -/

/-- C1: every tool handler, on every modelled outcome of its configuration,
network and parsing steps (including every failure thrown inside the body),
returns exactly one ToolResult whose first content item is a present text
item; handlers are total functions into `ToolResult`, so no exception or
rejection crosses the tool boundary. -/
theorem c1_all_tools_return_wellformed_result
    (c : Config) (loginNet loginNet2 userIdNet : AxiosResult String)
    (askNet : AskNet) (downloadNet : DownloadResult) (fNet gNet pNet : FetchResult)
    (jp : JsonParse) (dp : DateParse) (msg name url s1 s2 : String)
    (o1 o2 o3 o4 : Option String) (k : Int) (oi1 oi2 : Option Int) :
    wellFormed (larAsk c loginNet askNet msg k).1 = true ∧
    wellFormed (larUploadDocument c downloadNet loginNet fNet jp name url).1 = true ∧
    wellFormed (larDeleteDocument c loginNet fNet name).1 = true ∧
    wellFormed (larListDocuments c loginNet fNet jp).1 = true ∧
    wellFormed (larListClients c loginNet fNet jp).1 = true ∧
    wellFormed (larCreateClient c loginNet loginNet2 userIdNet fNet jp s1 s2 o1 o2).1 = true ∧
    wellFormed (larDeleteClient c loginNet fNet k).1 = true ∧
    wellFormed (larEditClient c loginNet gNet loginNet2 userIdNet pNet jp k o1 o2 o3 o4).1 = true ∧
    wellFormed (larListCases c loginNet fNet jp).1 = true ∧
    wellFormed (larCreateCase c loginNet loginNet2 userIdNet fNet jp dp s1 o1 s2 o2 k).1 = true ∧
    wellFormed (larDeleteCase c loginNet fNet k).1 = true ∧
    wellFormed (larEditCase c loginNet gNet loginNet2 userIdNet pNet jp dp k o1 o2 o3 o4 oi1 oi2).1 = true :=
  ⟨wellFormed_larAsk c loginNet askNet msg k,
   wellFormed_larUploadDocument c downloadNet loginNet fNet jp name url,
   wellFormed_larDeleteDocument c loginNet fNet name,
   wellFormed_larListDocuments c loginNet fNet jp,
   wellFormed_larListClients c loginNet fNet jp,
   wellFormed_larCreateClient c loginNet loginNet2 userIdNet fNet jp s1 s2 o1 o2,
   wellFormed_larDeleteClient c loginNet fNet k,
   wellFormed_larEditClient c loginNet gNet loginNet2 userIdNet pNet jp k o1 o2 o3 o4,
   wellFormed_larListCases c loginNet fNet jp,
   wellFormed_larCreateCase c loginNet loginNet2 userIdNet fNet jp dp s1 o1 s2 o2 k,
   wellFormed_larDeleteCase c loginNet fNet k,
   wellFormed_larEditCase c loginNet gNet loginNet2 userIdNet pNet jp dp k o1 o2 o3 o4 oi1 oi2⟩

/-! ## C2 -/

/-- C2 counterexample: a delete-case invocation whose backend DELETE
returns 404 produces exactly the generic "operation failed: status - body"
template (`Error al eliminar el caso: 404 - ...`), not a specific
"not found" message — the claim is false for lar-delete-case, whose non-ok
branch has no 404 special case. -/
theorem c2_counterexample :
    (larDeleteCase cfgFull (.okR "tok") (.resp ⟨404, "Case not found"⟩) 7).1 =
      mkText "Error al eliminar el caso: 404 - Case not found" := rfl

/-- C2 amended: a 404 on delete-document yields the literal not-found
message naming the document, while a 404 on delete-case takes the single
generic branch and yields the generic template. -/
theorem c2_amended_delete_404 (c : Config) (tok body docName : String) (caseId : Int)
    (hc : configMissing c = false) :
    (larDeleteDocument c (.okR tok) (.resp ⟨404, body⟩) docName).1 =
      mkText ("No se encontró ningún documento con el nombre \"" ++ docName ++ "\".") ∧
    (larDeleteCase c (.okR tok) (.resp ⟨404, body⟩) caseId).1 =
      mkText ("Error al eliminar el caso: 404 - " ++ body) := by
  constructor
  · simp [larDeleteDocument, larDeleteDocumentBody, loginAPI, hc, catchWith, respOk, mkText]
  · simp [larDeleteCase, larDeleteCaseBody, loginAPI, hc, catchWith, respOk, mkText]
    rfl

/-- C2 witness: the amended theorem at a concrete input. -/
theorem c2_amended_delete_404_witness :
    (larDeleteDocument cfgFull (.okR "tok") (.resp ⟨404, "nf"⟩) "contrato").1 =
      mkText "No se encontró ningún documento con el nombre \"contrato\"." :=
  (c2_amended_delete_404 cfgFull "tok" "nf" "contrato" 7 rfl).1

/-! ## C3 -/

/-- C3 counterexample: lar-upload-document with the password unset still
performs a network call — the document download happens before the
configuration check — so "zero network calls" is false for this tool. -/
theorem c3_counterexample :
    (larUploadDocument cfgNoPass (.resp (some "application/pdf") [37, 80, 68, 70, 45])
        (.okR "tok") (.resp ⟨200, ""⟩) jpFail "doc" "http://host/doc.pdf").2 =
      [Call.download] ∧
    [Call.download] ≠ ([] : List Call) :=
  ⟨rfl, by simp⟩

/-- C3 amended: with a missing configuration value, every tool except
lar-upload-document returns the configuration-error message (through its
catch template) with an empty network trace; lar-upload-document first
fetches the document URL, and when that download passes both PDF
validations it returns the configuration-error message having issued
exactly the download call and no backend call. -/
theorem c3_amended_config_missing (c : Config)
    (loginNet loginNet2 userIdNet : AxiosResult String) (askNet : AskNet)
    (fNet gNet pNet : FetchResult) (jp : JsonParse) (dp : DateParse)
    (msg name url s1 s2 : String) (o1 o2 o3 o4 : Option String)
    (k : Int) (oi1 oi2 : Option Int) (ct : Option String) (bytes : List Nat)
    (h : configMissing c = true) :
    larAsk c loginNet askNet msg k = (mkText (procMsg ++ loginMsg), []) ∧
    larDeleteDocument c loginNet fNet name = (mkText (procMsg ++ loginMsg), []) ∧
    larListDocuments c loginNet fNet jp =
      (mkText ("Error al obtener los documentos: " ++ loginMsg), []) ∧
    larListClients c loginNet fNet jp =
      (mkText ("Error al obtener los clientes: " ++ loginMsg), []) ∧
    larCreateClient c loginNet loginNet2 userIdNet fNet jp s1 s2 o1 o2 =
      (mkText (procMsg ++ loginMsg), []) ∧
    larDeleteClient c loginNet fNet k = (mkText (procMsg ++ loginMsg), []) ∧
    larEditClient c loginNet gNet loginNet2 userIdNet pNet jp k o1 o2 o3 o4 =
      (mkText (procMsg ++ loginMsg), []) ∧
    larListCases c loginNet fNet jp =
      (mkText ("Error al obtener los casos: " ++ loginMsg), []) ∧
    larCreateCase c loginNet loginNet2 userIdNet fNet jp dp s1 o1 s2 o2 k =
      (mkText (procMsg ++ loginMsg), []) ∧
    larDeleteCase c loginNet fNet k = (mkText (procMsg ++ loginMsg), []) ∧
    larEditCase c loginNet gNet loginNet2 userIdNet pNet jp dp k o1 o2 o3 o4 oi1 oi2 =
      (mkText (procMsg ++ loginMsg), []) ∧
    (contentTypeIsPdf ct = true → hasPdfMagic bytes = true →
      larUploadDocument c (.resp ct bytes) loginNet fNet jp name url =
        (mkText (procMsg ++ loginMsg), [Call.download])) := by
  refine ⟨?_, ?_, ?_, ?_, ?_, ?_, ?_, ?_, ?_, ?_, ?_, ?_⟩
  · simp [larAsk, larAskBody, loginAPI_configMissing c loginNet h, catchWith]
  · simp [larDeleteDocument, larDeleteDocumentBody, loginAPI_configMissing c loginNet h, catchWith]
  · simp [larListDocuments, larListDocumentsBody, loginAPI_configMissing c loginNet h, catchWith]
  · simp [larListClients, larListClientsBody, loginAPI_configMissing c loginNet h, catchWith]
  · simp [larCreateClient, larCreateClientBody, loginAPI_configMissing c loginNet h, catchWith]
  · simp [larDeleteClient, larDeleteClientBody, loginAPI_configMissing c loginNet h, catchWith]
  · simp [larEditClient, larEditClientBody, loginAPI_configMissing c loginNet h, catchWith]
  · simp [larListCases, larListCasesBody, loginAPI_configMissing c loginNet h, catchWith]
  · simp [larCreateCase, larCreateCaseBody, loginAPI_configMissing c loginNet h, catchWith]
  · simp [larDeleteCase, larDeleteCaseBody, loginAPI_configMissing c loginNet h, catchWith]
  · simp [larEditCase, larEditCaseBody, loginAPI_configMissing c loginNet h, catchWith]
  · intro hct hm
    simp [larUploadDocument, larUploadDocumentBody, hct, hm,
      loginAPI_configMissing c loginNet h, catchWith]

/-- C3 witness: the amended theorem at a concrete input. -/
theorem c3_amended_config_missing_witness :
    larAsk cfgNoPass (.okR "tok") (.resp ⟨200, "", true, []⟩) "hola" 1 =
      (mkText (procMsg ++ loginMsg), []) :=
  (c3_amended_config_missing cfgNoPass (.okR "tok") (.okR "tok") (.okR "u")
    (.resp ⟨200, "", true, []⟩) (.resp ⟨200, ""⟩) (.resp ⟨200, ""⟩) (.resp ⟨200, ""⟩)
    jpFail dpNone "hola" "doc" "http://host/doc.pdf" "n" "ci" none none none none 1
    none none (some "application/pdf") [37, 80, 68, 70, 45] rfl).1

/-! ## C4 -/

/-- C4 counterexample: edit-case with a caller-supplied empty-string title
puts the fetched title in the PUT payload, not the supplied empty string —
`title: title || currentCase.title` is truthiness-based, so the claim that
the truthiness rule applies only to assignedUserId, status and clientId is
false at this input. -/
theorem c4_counterexample :
    (larEditCase cfgFull (.okR "tok") (.resp ⟨200, "body"⟩) (.okR "tok") (.okR "u1")
        (.resp ⟨200, "ok"⟩) (jpConst (.obj [("title", .str "Titulo antiguo")])) dpNone
        5 (some "") (some "desc") (some "Open") none (some 3) (some 9)).2 =
      [Call.login, Call.caseGet,
       Call.casePut (.obj [("title", .str "Titulo antiguo"), ("description", .str "desc"),
         ("status", .str "Open"), ("clientId", .num 3), ("assignedUserId", .num 9)])] ∧
    "Titulo antiguo" ≠ "" :=
  ⟨rfl, by decide⟩

/-- C4 amended: in edit-client every caller-supplied string field,
including an explicitly empty string, is used in the PUT payload
(undefined-check); in edit-case only `description` follows the
undefined-check, while `title`, `status`, `clientId` and `assignedUserId`
follow the truthiness rule — a supplied empty string (or zero) behaves
exactly as if the field had not been provided, falling back to the fetched
value (or, for assignedUserId, to the resolved current user). -/
theorem c4_amended_merge_rules
    (cc : JVal) (idUser tOld dOld sOld : String) (cOld : Int)
    (d s t2 t3 d3 s3 : Option String)
    (nm ci ad no : String) (c : Config) (loginNet2 userIdNet : AxiosResult String)
    (cidO : Option Int) :
    updatedCaseDataBase cc (some "") d s cidO = updatedCaseDataBase cc none d s cidO ∧
    updatedCaseDataBase cc t2 d (some "") cidO = updatedCaseDataBase cc t2 d none cidO ∧
    updatedCaseDataBase cc t3 d3 s3 (some 0) = updatedCaseDataBase cc t3 d3 s3 none ∧
    assignedUserIdVal c loginNet2 userIdNet (some 0) =
      assignedUserIdVal c loginNet2 userIdNet none ∧
    updatedCaseDataBase
        (.obj [("title", .str tOld), ("description", .str dOld),
               ("status", .str sOld), ("clientId", .num cOld)])
        none (some "") none none =
      .ok [("title", .str tOld), ("description", .str ""),
           ("status", .str sOld), ("clientId", .num cOld)] ∧
    updatedClientData idUser cc (some nm) (some ci) (some ad) (some no) =
      .ok [("idUser", .str idUser), ("name", .str nm), ("contactInformation", .str ci),
           ("address", .str ad), ("notes", .str no)] :=
  ⟨rfl, rfl, rfl, rfl, rfl, rfl⟩

/-! ## C5 -/

/-- C5 counterexample: lar-list-documents reads its body with
`response.json()`, which throws on a non-JSON body; the call produces the
error-template result (caught at the boundary) with no structured field —
the raw text is not wrapped as a raw payload and the normal listing result
is not built, so the claim is false for this tool. -/
theorem c5_counterexample :
    (larListDocuments cfgFull (.okR "tok") (.resp ⟨200, "not-json"⟩) jpFail).1 =
      mkText ("Error al obtener los documentos: " ++
        "Unexpected token o in JSON at position 0") := rfl

/-- The upload success resolves `result.Id || result.id || "desconocido"`
to the fallback on a raw-wrapped payload. -/
theorem uploadIdVal_raw (s : String) :
    uploadIdVal (.obj [("raw", .str s)]) = .ok (.str "desconocido") := rfl

/-- C5 amended: at every call site that parses the backend body with
`JSON.parse` inside try/catch — the upload-document, create-client,
edit-client, create-case and edit-case POST/PUT responses — a non-JSON
body is wrapped as a raw payload and the tool builds its normal success
result; at every call site that reads with `response.json()` — the three
list tools and the GET step of the two edit tools — a non-JSON body raises
a parse failure that the tool boundary converts into that tool's
error-template result. -/
theorem c5_amended_parse_fallback (c : Config) (tok tok2 uid nm ci : String)
    (getBody badBody : String) (jp : JsonParse) (dp : DateParse) (st stg : Nat)
    (clientId caseId : Int) (ct : Option String) (bytes : List Nat)
    (hc : configMissing c = false) (hst : respOk st = true) (hstg : respOk stg = true)
    (hct : contentTypeIsPdf ct = true) (hmagic : hasPdfMagic bytes = true)
    (hpg : jp.parse getBody = some (.obj [])) (hp : jp.parse badBody = none) :
    (larUploadDocument c (.resp ct bytes) (.okR tok) (.resp ⟨st, badBody⟩) jp
        nm "http://host/doc.pdf").1 =
      mkTextF "Documento subido correctamente. ID: desconocido"
        [("apiResponse", .obj [("raw", .str badBody)])] ∧
    (larCreateClient c (.okR tok) (.okR tok2) (.okR uid) (.resp ⟨st, badBody⟩) jp
        nm ci none none).1 =
      mkTextF "Cliente creado correctamente.\x7d" [("client", .obj [("raw", .str badBody)])] ∧
    (larEditClient c (.okR tok) (.resp ⟨stg, getBody⟩) (.okR tok2) (.okR uid)
        (.resp ⟨st, badBody⟩) jp clientId (some nm) (some ci) (some "addr") (some "nt")).1 =
      mkTextF ("Cliente con ID " ++ toString clientId ++ " actualizado correctamente.")
        [("client", .obj [("raw", .str badBody)])] ∧
    (larCreateCase c (.okR tok) (.okR tok2) (.okR uid) (.resp ⟨st, badBody⟩) jp dp
        "T" none "Open" none clientId).1 =
      mkTextF "Caso creado correctamente." [("case", .obj [("raw", .str badBody)])] ∧
    (larEditCase c (.okR tok) (.resp ⟨stg, getBody⟩) (.okR tok2) (.okR uid)
        (.resp ⟨st, badBody⟩) jp dp caseId (some "T") (some "d") (some "Open") none
        (some 1) (some 2)).1 =
      mkTextF ("Caso con ID " ++ toString caseId ++ " actualizado correctamente.")
        [("case", .obj [("raw", .str badBody)])] ∧
    (larListDocuments c (.okR tok) (.resp ⟨st, badBody⟩) jp).1 =
      mkText ("Error al obtener los documentos: " ++ jp.errMsg badBody) ∧
    (larListClients c (.okR tok) (.resp ⟨st, badBody⟩) jp).1 =
      mkText ("Error al obtener los clientes: " ++ jp.errMsg badBody) ∧
    (larListCases c (.okR tok) (.resp ⟨st, badBody⟩) jp).1 =
      mkText ("Error al obtener los casos: " ++ jp.errMsg badBody) ∧
    (larEditClient c (.okR tok) (.resp ⟨st, badBody⟩) (.okR tok2) (.okR uid)
        (.resp ⟨st, badBody⟩) jp clientId none none none none).1 =
      mkText (procMsg ++ jp.errMsg badBody) ∧
    (larEditCase c (.okR tok) (.resp ⟨st, badBody⟩) (.okR tok2) (.okR uid)
        (.resp ⟨st, badBody⟩) jp dp caseId none none none none none none).1 =
      mkText (procMsg ++ jp.errMsg badBody) := by
  refine ⟨?_, ?_, ?_, ?_, ?_, ?_, ?_, ?_, ?_, ?_⟩
  · simp [larUploadDocument, larUploadDocumentBody, loginAPI, hc, hct, hmagic, hst, hp,
      catchWith, parseOrRaw, uploadIdVal_raw, JVal.jsToString]
  · simp [larCreateClient, larCreateClientBody, loginAPI, getUserId, hc, hst, hp,
      catchWith, parseOrRaw]
  · simp [larEditClient, larEditClientBody, editClientPut, updatedClientData, loginAPI,
      getUserId, responseJson, parseOrRaw, hc, hst, hstg, hpg, hp, catchWith]
  · simp [larCreateCase, larCreateCaseBody, createCasePost, parseOrRaw, loginAPI,
      getUserId, hc, hst, hp, catchWith]
  · simp [larEditCase, larEditCaseBody, editCasePut, updatedCaseDataBase, assignedUserIdVal,
      JVal.getField, assocFind, JVal.truthy, parseOrRaw, loginAPI, getUserId, responseJson,
      hc, hst, hstg, hpg, hp, catchWith]
  · simp [larListDocuments, larListDocumentsBody, responseJson, loginAPI, hc, hst, hp,
      catchWith]
  · simp [larListClients, larListClientsBody, responseJson, loginAPI, hc, hst, hp,
      catchWith]
  · simp [larListCases, larListCasesBody, responseJson, loginAPI, hc, hst, hp, catchWith]
  · simp [larEditClient, larEditClientBody, responseJson, loginAPI, hc, hst, hp, catchWith]
  · simp [larEditCase, larEditCaseBody, responseJson, loginAPI, hc, hst, hp, catchWith]

/-- C5 witness: the amended theorem at a concrete input (the tolerant
upload-document conjunct, with a parser that accepts only the GET body). -/
theorem c5_amended_parse_fallback_witness :
    (larUploadDocument cfgFull (.resp (some "application/pdf") [37, 80, 68, 70, 45])
        (.okR "tok") (.resp ⟨200, "oops"⟩) (jpOnly "ent" (.obj [])) "doc"
        "http://host/doc.pdf").1 =
      mkTextF "Documento subido correctamente. ID: desconocido"
        [("apiResponse", .obj [("raw", .str "oops")])] :=
  (c5_amended_parse_fallback cfgFull "tok" "tok" "u7" "doc" "c" "ent" "oops"
    (jpOnly "ent" (.obj [])) dpNone 200 200 4 5 (some "application/pdf")
    [37, 80, 68, 70, 45] rfl rfl rfl rfl rfl rfl rfl).1

/-! ## C6 -/

/-- C6 counterexample: a failure caught at the boundary of
lar-list-documents is reported through the tool-specific template
`Error al obtener los documentos: `, which differs from the claimed
universal template `Error en el proceso: `. -/
theorem c6_counterexample :
    (larListDocuments cfgNoPass (.okR "tok") (.resp ⟨200, "[]"⟩) jpFail).1 =
      mkText ("Error al obtener los documentos: " ++ loginMsg) ∧
    "Error al obtener los documentos: " ++ loginMsg ≠ procMsg ++ loginMsg :=
  ⟨rfl, by decide⟩

/-- C6 amended: when a tool body throws, nine of the twelve tools report
`Error en el proceso: ` followed by the message, while the three list tools
use their specific templates (`Error al obtener los documentos/clientes/casos: `). -/
theorem c6_amended_catch_templates (c : Config)
    (loginNet loginNet2 userIdNet : AxiosResult String) (askNet : AskNet)
    (downloadNet : DownloadResult) (fNet gNet pNet : FetchResult)
    (jp : JsonParse) (dp : DateParse) (msg name url s1 s2 : String)
    (o1 o2 o3 o4 : Option String) (k : Int) (oi1 oi2 : Option Int) (m : String) :
    ((larAskBody c loginNet askNet msg k).1 = .error m →
      (larAsk c loginNet askNet msg k).1 = mkText (procMsg ++ m)) ∧
    ((larUploadDocumentBody c downloadNet loginNet fNet jp name url).1 = .error m →
      (larUploadDocument c downloadNet loginNet fNet jp name url).1 = mkText (procMsg ++ m)) ∧
    ((larDeleteDocumentBody c loginNet fNet name).1 = .error m →
      (larDeleteDocument c loginNet fNet name).1 = mkText (procMsg ++ m)) ∧
    ((larListDocumentsBody c loginNet fNet jp).1 = .error m →
      (larListDocuments c loginNet fNet jp).1 =
        mkText ("Error al obtener los documentos: " ++ m)) ∧
    ((larListClientsBody c loginNet fNet jp).1 = .error m →
      (larListClients c loginNet fNet jp).1 =
        mkText ("Error al obtener los clientes: " ++ m)) ∧
    ((larCreateClientBody c loginNet loginNet2 userIdNet fNet jp s1 s2 o1 o2).1 = .error m →
      (larCreateClient c loginNet loginNet2 userIdNet fNet jp s1 s2 o1 o2).1 =
        mkText (procMsg ++ m)) ∧
    ((larDeleteClientBody c loginNet fNet k).1 = .error m →
      (larDeleteClient c loginNet fNet k).1 = mkText (procMsg ++ m)) ∧
    ((larEditClientBody c loginNet gNet loginNet2 userIdNet pNet jp k o1 o2 o3 o4).1 = .error m →
      (larEditClient c loginNet gNet loginNet2 userIdNet pNet jp k o1 o2 o3 o4).1 =
        mkText (procMsg ++ m)) ∧
    ((larListCasesBody c loginNet fNet jp).1 = .error m →
      (larListCases c loginNet fNet jp).1 =
        mkText ("Error al obtener los casos: " ++ m)) ∧
    ((larCreateCaseBody c loginNet loginNet2 userIdNet fNet jp dp s1 o1 s2 o2 k).1 = .error m →
      (larCreateCase c loginNet loginNet2 userIdNet fNet jp dp s1 o1 s2 o2 k).1 =
        mkText (procMsg ++ m)) ∧
    ((larDeleteCaseBody c loginNet fNet k).1 = .error m →
      (larDeleteCase c loginNet fNet k).1 = mkText (procMsg ++ m)) ∧
    ((larEditCaseBody c loginNet gNet loginNet2 userIdNet pNet jp dp k o1 o2 o3 o4 oi1 oi2).1 = .error m →
      (larEditCase c loginNet gNet loginNet2 userIdNet pNet jp dp k o1 o2 o3 o4 oi1 oi2).1 =
        mkText (procMsg ++ m)) :=
  ⟨fun h => catchWith_error _ m _ h, fun h => catchWith_error _ m _ h,
   fun h => catchWith_error _ m _ h, fun h => catchWith_error _ m _ h,
   fun h => catchWith_error _ m _ h, fun h => catchWith_error _ m _ h,
   fun h => catchWith_error _ m _ h, fun h => catchWith_error _ m _ h,
   fun h => catchWith_error _ m _ h, fun h => catchWith_error _ m _ h,
   fun h => catchWith_error _ m _ h, fun h => catchWith_error _ m _ h⟩

/-- C6 witness: the amended theorem at a concrete input (the configuration
failure thrown by loginAPI inside lar-ask). -/
theorem c6_amended_catch_templates_witness :
    (larAsk cfgNoPass (.okR "tok") (.resp ⟨200, "", true, []⟩) "hola" 1).1 =
      mkText (procMsg ++ loginMsg) :=
  (c6_amended_catch_templates cfgNoPass (.okR "tok") (.okR "tok") (.okR "u")
    (.resp ⟨200, "", true, []⟩) (.resp (some "application/pdf") []) (.resp ⟨200, ""⟩)
    (.resp ⟨200, ""⟩) (.resp ⟨200, ""⟩) jpFail dpNone "hola" "doc" "http://h/d.pdf" "n" "ci"
    none none none none 1 none none loginMsg).1 rfl

/-! ## C7 -/

/-- C7: an upload-document invocation whose downloaded body does not start
with the `%PDF-` signature bytes — even when the content-type header claims
PDF — returns the "not a valid PDF" message, and its network trace is
exactly the download: the upload endpoint is never called. -/
theorem c7_upload_rejects_bad_magic (c : Config) (loginNet : AxiosResult String)
    (uploadNet : FetchResult) (jp : JsonParse) (name url : String)
    (ct : Option String) (bytes : List Nat)
    (hct : contentTypeIsPdf ct = true) (hm : hasPdfMagic bytes = false) :
    larUploadDocument c (.resp ct bytes) loginNet uploadNet jp name url =
      (mkText "Solo se permiten archivos PDF. El archivo descargado no es un PDF válido.",
        [Call.download]) := by
  simp [larUploadDocument, larUploadDocumentBody, hct, hm, catchWith]

/-- C7 witness: the theorem at a concrete input. -/
theorem c7_upload_rejects_bad_magic_witness :
    larUploadDocument cfgFull (.resp (some "application/pdf") [1, 2, 3]) (.okR "tok")
        (.resp ⟨200, ""⟩) jpFail "doc" "http://host/doc.pdf" =
      (mkText "Solo se permiten archivos PDF. El archivo descargado no es un PDF válido.",
        [Call.download]) :=
  c7_upload_rejects_bad_magic cfgFull (.okR "tok") (.resp ⟨200, ""⟩) jpFail "doc"
    "http://host/doc.pdf" (some "application/pdf") [1, 2, 3] rfl rfl

/-! ## C8 -/

/-- C8: the stream decoder splits each decoded chunk on the double-newline
delimiter, discards empty frames, appends exactly the remainder after the
literal `data: ` of each frame beginning with that prefix and contributes
nothing for other frames; in particular an SSE body delivering
`data: Hello` and `data: World` in two double-newline-delimited chunks
accumulates to `HelloWorld` in the lar-ask result. -/
theorem c8_stream_decoder :
    (∀ acc chunk, processChunk acc chunk =
      acc ++ strJoin (((strSplitNN chunk).filter (fun e => e != "")).map
        (fun e => if strStartsWith e "data: " then strDropN e 6 else ""))) ∧
    (larAsk cfgFull (.okR "tok")
        (.resp ⟨200, "", true, ["data: Hello\n\n", "data: World\n\n"]⟩) "pregunta" 1).1 =
      mkTextF "HelloWorld" [("question", .str "pregunta"), ("fileId", .num 1)] := by
  constructor
  · intro acc chunk
    unfold processChunk
    generalize (strSplitNN chunk).filter (fun e => e != "") = l
    induction l generalizing acc with
    | nil => exact (String.append_empty acc).symm
    | cons x xs ih =>
      simp only [List.foldl_cons, List.map_cons, strJoin]
      rw [ih]
      by_cases hx : strStartsWith x "data: " = true
      · simp only [hx, if_true]
        exact strAppend_assoc acc (strDropN x 6) _
      · simp only [hx, if_false, Bool.false_eq_true]
        rw [String.empty_append]
  · rfl

/-! ## C9 -/

/-- C9: edit-client with none of the optional fields supplied, against a
fetched entity with name `Acme`, contactInformation `x` and address `Y`,
issues a PUT whose body carries exactly those values back (a no-op update,
plus the resolved idUser). -/
theorem c9_edit_client_noop (c : Config) (tok tok2 uid body : String)
    (putNet : FetchResult) (jp : JsonParse) (clientId : Int) (st : Nat)
    (hc : configMissing c = false) (hst : respOk st = true)
    (hp : jp.parse body = some (.obj [("name", .str "Acme"),
      ("contactInformation", .str "x"), ("address", .str "Y")])) :
    (larEditClient c (.okR tok) (.resp ⟨st, body⟩) (.okR tok2) (.okR uid) putNet jp
      clientId none none none none).2 =
      [Call.login, Call.clientGet, Call.login, Call.userId,
       Call.clientPut (.obj [("idUser", .str uid), ("name", .str "Acme"),
         ("contactInformation", .str "x"), ("address", .str "Y")])] := by
  cases putNet with
  | thrown m =>
    simp [larEditClient, larEditClientBody, editClientPut, loginAPI, getUserId, responseJson,
      updatedClientData, JVal.getField, assocFind, JVal.truthy, hc, hst, hp, catchWith]
  | resp r =>
    rcases hro : respOk r.status <;>
      simp [larEditClient, larEditClientBody, editClientPut, loginAPI, getUserId, responseJson,
        updatedClientData, JVal.getField, assocFind, JVal.truthy, hc, hst, hp, hro, catchWith]

/-- C9 witness: the theorem at a concrete input. -/
theorem c9_edit_client_noop_witness :
    (larEditClient cfgFull (.okR "tok") (.resp ⟨200, "ent"⟩) (.okR "tok") (.okR "u9")
        (.resp ⟨200, "done"⟩)
        (jpConst (.obj [("name", .str "Acme"), ("contactInformation", .str "x"),
          ("address", .str "Y")])) 4 none none none none).2 =
      [Call.login, Call.clientGet, Call.login, Call.userId,
       Call.clientPut (.obj [("idUser", .str "u9"), ("name", .str "Acme"),
         ("contactInformation", .str "x"), ("address", .str "Y")])] :=
  c9_edit_client_noop cfgFull "tok" "tok" "u9" "ent" (.resp ⟨200, "done"⟩)
    (jpConst (.obj [("name", .str "Acme"), ("contactInformation", .str "x"),
      ("address", .str "Y")])) 4 200 rfl rfl rfl

/-! ## C10 -/

/-- C10: a list-cases response parsing to a non-array value or an empty
array yields the no-cases message with no structured field, while a
non-empty array yields the serialized listing together with the `cases`
field. -/
theorem c10_list_cases_branches (c : Config) (tok body : String) (jp : JsonParse)
    (st : Nat) (v : JVal)
    (hc : configMissing c = false) (hst : respOk st = true) (hp : jp.parse body = some v) :
    ((∀ x xs, v ≠ .arr (x :: xs)) →
      (larListCases c (.okR tok) (.resp ⟨st, body⟩) jp).1 =
        mkText "No hay casos disponibles en el sistema.") ∧
    (∀ x xs, v = .arr (x :: xs) →
      (larListCases c (.okR tok) (.resp ⟨st, body⟩) jp).1 =
        mkTextF (jsonStringify2 v) [("cases", v)]) := by
  constructor
  · intro hne
    cases v with
    | arr elems =>
      cases elems with
      | nil =>
        simp [larListCases, larListCasesBody, loginAPI, responseJson, hc, hst, hp, catchWith]
      | cons x xs => exact absurd rfl (hne x xs)
    | jsUndefined =>
      simp [larListCases, larListCasesBody, loginAPI, responseJson, hc, hst, hp, catchWith]
    | null =>
      simp [larListCases, larListCasesBody, loginAPI, responseJson, hc, hst, hp, catchWith]
    | bool b =>
      simp [larListCases, larListCasesBody, loginAPI, responseJson, hc, hst, hp, catchWith]
    | num n =>
      simp [larListCases, larListCasesBody, loginAPI, responseJson, hc, hst, hp, catchWith]
    | str s =>
      simp [larListCases, larListCasesBody, loginAPI, responseJson, hc, hst, hp, catchWith]
    | obj fs =>
      simp [larListCases, larListCasesBody, loginAPI, responseJson, hc, hst, hp, catchWith]
  · intro x xs hv
    subst hv
    simp [larListCases, larListCasesBody, loginAPI, responseJson, hc, hst, hp, catchWith]

/-- C10 witness: the theorem at a concrete input (a one-element array). -/
theorem c10_list_cases_branches_witness :
    (larListCases cfgFull (.okR "tok") (.resp ⟨200, "x"⟩) (jpConst (.arr [.num 1]))).1 =
      mkTextF (jsonStringify2 (.arr [.num 1])) [("cases", .arr [.num 1])] :=
  (c10_list_cases_branches cfgFull "tok" "x" (jpConst (.arr [.num 1])) 200 (.arr [.num 1])
    rfl rfl rfl).2 (.num 1) [] rfl

end LarMcp
